import Mathlib

/-!
Verification of the Inversion AWS instance-deployer backend
(`aws_deployer_app`): a shallow embedding in Lean 4 of the provisioning
pipeline, the milestone progress matcher, the SSM readiness wait, the
EC2 launch-request builder, the security-group ensurer, the trust
verification retry loop and the in-memory credential store, together
with theorems settling the specification claims about them.

Python strings are modelled as Lean `String`; Python `needle in hay`
is `pyIn`; Python truthiness of an optional string (`if s:`) is
`optTruthy`.  Provider calls are modelled by explicit environments that
fix each call's outcome, and functions return the ordered trace of
calls they issued alongside their result, so that ordering and
call-count properties can be stated.
-/

namespace AwsDeployer

/-- Python substring test: does the string `needle` occur inside `hay`
(`needle in hay`)? -/
def pyIn (needle hay : String) : Bool :=
  decide (needle.data <:+: hay.data)

/-- Python `str.lower()` restricted to ASCII, which is all the milestone
tables use. -/
def lowerStr (s : String) : String :=
  ⟨s.data.map Char.toLower⟩

/-- Python truthiness of an optional string: `None` and the empty string
are falsy, every other string is truthy. -/
def optTruthy : Option String → Bool
  | none => false
  | some s => s ≠ ""

deriving instance DecidableEq for Except

/-- A raised FastAPI `HTTPException`: status code plus detail text. -/
structure HttpErr where
  status : Nat
  detail : String
deriving DecidableEq

/-! ## Milestone tables and the progress matcher

From `api_server.py` (`AwsMilestones` and the milestone scan inside
`deploy_stream.event_stream`) and from `aws_utils.py`
(`DeploymentWorker._MILESTONES` / `_maybe_emit_progress`). -/

/-- The milestone table of `api_server.py` (already lower-case in the
source). -/
def AwsMilestones : List (String × Nat) :=
  [("checking aws cli prerequisites", 5),
   ("key pair", 10),
   ("finding latest", 15),
   ("creating security group", 20),
   ("launching ec2", 30),
   ("waiting for instance state", 40),
   ("waiting for aws status checks", 50),
   ("ssh connection established", 55),
   ("installing docker", 60),
   ("docker installation completed", 70),
   ("configuring aws credentials", 75),
   ("aws sso credentials configured", 80),
   ("pulling", 85),
   ("container deployment completed", 95),
   ("deployment completed successfully", 100)]

/-- The milestone table of `aws_utils.py` (`DeploymentWorker._MILESTONES`,
mixed case in the source; `_maybe_emit_progress` lowers each entry before
matching). -/
def workerMilestones : List (String × Nat) :=
  [("Checking AWS CLI prerequisites", 5),
   ("Key pair", 10),
   ("Finding latest", 15),
   ("Creating security group", 20),
   ("Launching EC2", 30),
   ("Waiting for instance state", 40),
   ("Waiting for AWS status checks", 50),
   ("SSH connection established", 55),
   ("Installing Docker", 60),
   ("Docker installation completed", 70),
   ("Configuring AWS credentials", 75),
   ("AWS SSO credentials configured", 80),
   ("Pulling", 85),
   ("Container deployment completed", 95),
   ("Deployment completed successfully", 100)]

/-- Scan a milestone table in order against an already-lowered log line,
lowering each table entry with `entryLower` first; return the percentage
of the first entry whose text occurs in the line (the loop in
`event_stream` and in `_maybe_emit_progress`: `for text, pct in table:
if text in lower: emit(pct); break`). -/
def milestoneScan (entryLower : String → String) :
    List (String × Nat) → String → Option Nat
  | [], _ => none
  | (text, pct) :: rest, lower =>
    if pyIn (entryLower text) lower then some pct
    else milestoneScan entryLower rest lower

/-- Milestone event emitted for one log line by the streaming endpoint
(`event_stream` lowers the line; table entries are used as written). -/
def streamMilestone (line : String) : Option Nat :=
  milestoneScan id AwsMilestones (lowerStr line)

/-- Milestone event emitted for one log line by the GUI worker
(`_maybe_emit_progress` lowers both the line and each table entry). -/
def workerMilestone (line : String) : Option Nat :=
  milestoneScan lowerStr workerMilestones (lowerStr line)

/-- Progress events produced by a sequence of log lines: each line is
matched independently and contributes at most one event. -/
def progressEvents (emit : String → Option Nat) (lines : List String) : List Nat :=
  lines.filterMap emit

/-! ## SSM readiness wait

From `api_server.py` (`_wait_for_ssm`).  One probe attempt sends a
trivial `echo ok` command and reads the command invocation's status;
the abstraction below records the observable outcome of one attempt
(the 2-second settling sleep inside an attempt is not modelled, only
the 10-second spacing between attempts is). -/

/-- Outcome of one `_wait_for_ssm` probe attempt. -/
inductive SsmAttempt where
  /-- `send_command` and `get_command_invocation` succeeded and the
  invocation reported status `s`. -/
  | invocationStatus (s : String)
  /-- a `ClientError` with the given error code was raised. -/
  | clientError (code : String)
  /-- some other exception was raised. -/
  | otherError
deriving DecidableEq

/-- The error raised when every attempt is exhausted. -/
def ssmFailDetail (maxRetries : Nat) : HttpErr :=
  ⟨500, "SSM connection failed after " ++ toString (maxRetries * 10) ++
    " seconds. Instance may still be initializing. Ensure the instance has an IAM role with SSM permissions."⟩

/-- Does this probe outcome make `_wait_for_ssm` return?  The source
returns both on status Success and on status Failed (a failed but
responsive command proves the channel is usable); every other outcome
falls through to the retry sleep. -/
def ssmReady : SsmAttempt → Bool
  | .invocationStatus s => s = "Success" || s = "Failed"
  | _ => false

/-- The retry loop of `_wait_for_ssm`: `attempt` is the current index,
the second `Nat` is the number of attempts remaining.  Returns the index
of the attempt that observed readiness (or the exhaustion error), paired
with the list of inter-attempt sleeps performed (`time.sleep(10)` runs
only when `attempt < max_retries - 1`, i.e. when at least one attempt
remains after this one). -/
def waitForSsmGo (probe : Nat → SsmAttempt) (maxRetries : Nat) :
    Nat → Nat → Except HttpErr Nat × List Nat
  | _, 0 => (Except.error (ssmFailDetail maxRetries), [])
  | attempt, remaining + 1 =>
    if ssmReady (probe attempt) then (Except.ok attempt, [])
    else
      let rest := waitForSsmGo probe maxRetries (attempt + 1) remaining
      (rest.1, (if 1 ≤ remaining then [10] else []) ++ rest.2)

/-- `_wait_for_ssm` with its default budget of 30 attempts. -/
def waitForSsm (probe : Nat → SsmAttempt) : Except HttpErr Nat × List Nat :=
  waitForSsmGo probe 30 0 30

/-- A concrete probe history: the first two attempts see an in-flight
invocation, the third sees a dispatched command whose shell status is
Failed. -/
def ssmProbeFailedThird : Nat → SsmAttempt := fun n =>
  if n = 2 then .invocationStatus "Failed" else .invocationStatus "Pending"

/-! ## Container start error classification

From `api_server.py` (`_pull_and_run_container`): after the single
long-running SSM command, a failure whose message mentions a missing
image manifest is turned into an actionable 404, every other failure
into a generic 500. -/

/-- The remediation detail of the missing-image 404 raised by
`_pull_and_run_container`. -/
def imageNotFoundDetail (repository errorMsg : String) : String :=
  "Docker image not found in ECR. The repository \x27" ++ repository ++
  "\x27 appears to be empty. Please push an image to ECR using the Docker Image Upload section in the UI, or manually:\n\n" ++
  "1. Build your Docker image: docker build -t " ++ repository ++ " .\n" ++
  "2. Export to tar: docker save " ++ repository ++ ":latest -o " ++ repository ++ ".tar\n" ++
  "3. Upload the tar file through the UI\x27s Docker Image Upload section\n\n" ++
  "Original error: " ++ errorMsg

/-- Error classification of `_pull_and_run_container` given the SSM
command outcome `(success, output, error)`: Python `error or output`
picks the error text when non-empty, otherwise the output text. -/
def pullAndRunContainer (repository : String) (success : Bool) (output error : String) :
    Except HttpErr Unit :=
  if success then Except.ok ()
  else
    let errorMsg := if error ≠ "" then error else output
    if pyIn "manifest unknown" errorMsg || pyIn "Requested image not found" errorMsg then
      Except.error ⟨404, imageNotFoundDetail repository errorMsg⟩
    else
      Except.error ⟨500, "Container deployment failed: " ++ errorMsg⟩

/-! ## In-memory credential store

From `auth_routes.py` (`aws_sessions` and `get_session_credentials`).
The store is the process-wide dict keyed by session id; expiry
timestamps are modelled as integers, `now` is passed explicitly. -/

/-- One stored AWS session (the dict written by the verify and
assume-role endpoints).  `accountId` is optional to model the
`if account_id in session_creds` key-presence check. -/
structure AwsSessionRec where
  accessKeyId : String
  secretAccessKey : String
  sessionToken : String
  expiration : Int
  region : String
  roleArn : String
  accountId : Option String
deriving DecidableEq

/-- The in-memory `aws_sessions` dict, as an association list with
unique keys (dict semantics). -/
abbrev SessionStore := List (String × AwsSessionRec)

/-- Dict read `aws_sessions.get(session_id)`. -/
def storeLookup (store : SessionStore) (sid : String) : Option AwsSessionRec :=
  (store.find? (fun p => p.1 == sid)).map Prod.snd

/-- Dict removal `aws_sessions.pop(session_id, None)`. -/
def storePop (store : SessionStore) (sid : String) : SessionStore :=
  store.filter (fun p => p.1 != sid)

/-- `get_session_credentials`: 401 when no (truthy) session id is
supplied, 401 when the id is not in the store, lazy removal plus 401
when the stored expiry is in the past, otherwise the stored
credentials.  Returns the updated store alongside the result. -/
def getSessionCredentials (store : SessionStore) (sessionId : Option String) (now : Int) :
    SessionStore × Except HttpErr AwsSessionRec :=
  match sessionId with
  | none => (store, Except.error ⟨401, "No session ID provided"⟩)
  | some sid =>
    if sid = "" then (store, Except.error ⟨401, "No session ID provided"⟩)
    else
      match storeLookup store sid with
      | none => (store, Except.error ⟨401, "Invalid or expired session"⟩)
      | some sess =>
        if sess.expiration < now then
          (storePop store sid, Except.error ⟨401, "Session expired. Please login again."⟩)
        else
          (store, Except.ok sess)

/-! ## Security-group ensurer

From `api_server.py` (`_ensure_security_group`).  The EC2 control plane
is modelled deterministically: describing an absent group raises
`InvalidGroup.NotFound` (the only describe failure the claim needs) and
creation succeeds, assigning a fresh identifier.  The function returns
its ordered provider-call trace so mutating calls can be counted. -/

/-- EC2 calls issued by the security-group ensurer. -/
inductive SgCall where
  | describeSecurityGroups (name : String)
  | createSecurityGroup (name : String)
deriving DecidableEq

/-- Is this provider call mutating? -/
def sgMutating : SgCall → Bool
  | .createSecurityGroup _ => true
  | .describeSecurityGroups _ => false

/-- The EC2 security-group control-plane state: existing groups
(name to id) and a counter for fresh identifiers. -/
structure SgState where
  groups : List (String × String)
  nextId : Nat
deriving DecidableEq

/-- `_ensure_security_group`: describe by name; if present return its
id without mutation, otherwise create it (no inbound rules are added in
either case).  Returns the new state, the call trace, and the group
id. -/
def ensureSecurityGroup (st : SgState) (name : String) :
    SgState × List SgCall × String :=
  match (st.groups.find? (fun p => p.1 == name)).map Prod.snd with
  | some sgId => (st, [SgCall.describeSecurityGroups name], sgId)
  | none =>
    let sgId := "sg-" ++ toString st.nextId
    ({ groups := (name, sgId) :: st.groups, nextId := st.nextId + 1 },
     [SgCall.describeSecurityGroups name, SgCall.createSecurityGroup name], sgId)

/-! ## Synchronous deploy endpoint: session account-id override

From `api_server.py` (`deploy`): with session-based auth the body's
account id is overwritten from the stored session before
`_deploy_with_boto3` runs. -/

/-- The request body of `POST /api/deploy` (`DeployRequestModel`). -/
structure DeployBody where
  profile : Option String
  region : String
  accountId : String
  repository : String
  instanceType : String
  securityGroup : Option String
  volumeSize : Nat
  volumeType : Option String
  availabilityZone : Option String
  subnetId : Option String
  userData : Option String
  amiId : Option String
  amiType : Option String
deriving DecidableEq

/-- The prelude of the `deploy` endpoint: resolve the session header,
override the body's account id from the session when the stored
credentials carry one, and hand `(body, session_creds)` to the
pipeline.  Returns exactly the pair `_deploy_with_boto3` receives. -/
def deployPrepare (store : SessionStore) (headerSessionId : Option String)
    (body : DeployBody) (now : Int) :
    Except HttpErr (DeployBody × Option AwsSessionRec) :=
  if optTruthy headerSessionId then
    match (getSessionCredentials store headerSessionId now).2 with
    | Except.error e => Except.error e
    | Except.ok creds =>
      match creds.accountId with
      | some a => Except.ok ({ body with accountId := a }, some creds)
      | none => Except.ok (body, some creds)
  else
    Except.ok (body, none)

/-! ## Instance launcher

From `api_server.py`: `_requires_cluster_placement_group`,
`_get_hpc7a_supported_regions`, `_validate_instance_type_region`,
`_ensure_placement_group` and `_launch_ec2_instance`.  The EC2/IAM
control planes are modelled by a `LaunchEnv` fixing each provider
call's outcome; the launcher returns the ordered trace of calls it
issued and, on success, the `run_instances` request it submitted (the
post-submission running-state wait and DNS read are outside the claims
about the request shape).  Exception texts interpolated into error
details are elided; the constant message prefixes are kept. -/

/-- The fixed HPC allow-list of `_requires_cluster_placement_group`. -/
def hpcFamilies : List String := ["hpc6a", "hpc6id", "hpc7a", "hpc7g"]

/-- Does this instance type require a cluster placement group?
(`any(hpc_family in instance_lower for hpc_family in hpc_families)`). -/
def requiresClusterPlacementGroup (instanceType : String) : Bool :=
  hpcFamilies.any (fun fam => pyIn fam (lowerStr instanceType))

/-- `_get_hpc7a_supported_regions`: region code to region name. -/
def hpc7aSupportedRegions : List (String × String) :=
  [("us-east-2", "US East (Ohio)"),
   ("eu-west-1", "Europe (Ireland)"),
   ("eu-west-3", "Europe (Paris)"),
   ("eu-north-1", "Europe (Stockholm)"),
   ("us-gov-west-1", "AWS GovCloud (US-West)")]

/-- The `code (name)` listing used inside the HPC7a error messages. -/
def hpc7aRegionListText : String :=
  String.intercalate ", "
    (hpc7aSupportedRegions.map (fun p => p.1 ++ " (" ++ p.2 ++ ")"))

/-- Error detail when HPC7a is requested in an unsupported region. -/
def hpc7aRegionErrDetail (region : String) : String :=
  "HPC7a instances are not available in region \x27" ++ region ++ "\x27. " ++
  "HPC7a instances are only available in the following regions: " ++ hpc7aRegionListText ++
  ". Please use one of these regions to launch HPC7a instances."

/-- Error detail when the supported region offers the type in no AZ. -/
def hpc7aOfferingErrDetail (instanceType region : String) : String :=
  "Instance type \x27" ++ instanceType ++ "\x27 is not available in region \x27" ++ region ++
  "\x27 (even though it\x27s a supported HPC7a region). " ++
  "HPC7a instances are available in: " ++ hpc7aRegionListText ++ "."

/-- The `Placement` field of a `run_instances` request. -/
structure Placement where
  groupName : Option String
  availabilityZone : Option String
deriving DecidableEq

/-- The `run_instances` request assembled by `_launch_ec2_instance`
(`run_params`): the base fields plus the networking fields whose
presence depends on the requested subnet, zone and placement group. -/
structure RunParams where
  imageId : String
  instanceType : String
  iamInstanceProfileArn : String
  blockDeviceName : String
  volumeSize : Nat
  volumeType : String
  tagName : String
  tagProject : String
  minCount : Nat
  maxCount : Nat
  securityGroupIds : Option (List String)
  securityGroups : Option (List String)
  subnetId : Option String
  placement : Option Placement
  userData : Option String
deriving DecidableEq

/-- Provider calls issued while launching an instance. -/
inductive AwsCall where
  | ensureIamRole (roleName : String)
  | getInstanceProfile (roleName : String)
  | describeInstanceTypeOfferings (instanceType : String)
  | describePlacementGroups (name : String)
  | createPlacementGroup (name : String)
  | describeSecurityGroupsByName (name : String)
  | describeSecurityGroupsById (id : String)
  | describeSubnets (subnetId : String)
  | runInstances (p : RunParams)
deriving DecidableEq

/-- Is this the create-instance submission? -/
def isRunInstances : AwsCall → Bool
  | .runInstances _ => true
  | _ => false

/-- The request of the first create-instance submission in a trace. -/
def runParamsOf (trace : List AwsCall) : Option RunParams :=
  trace.findSome? (fun c => match c with
    | .runInstances p => some p
    | _ => none)

/-- `_validate_instance_type_region`: only HPC7a types are checked; an
unsupported region is a 400, a supported region whose offerings list is
empty is a 400, a failing offerings describe only warns.  Returns the
calls issued and the outcome. -/
def validateInstanceTypeRegion (offerings : Option (List String))
    (instanceType region : String) : List AwsCall × Except HttpErr Unit :=
  if pyIn "hpc7a" (lowerStr instanceType) then
    if (hpc7aSupportedRegions.map Prod.fst).contains region = false then
      ([], Except.error ⟨400, hpc7aRegionErrDetail region⟩)
    else
      match offerings with
      | none => ([AwsCall.describeInstanceTypeOfferings instanceType], Except.ok ())
      | some azs =>
        if azs.isEmpty then
          ([AwsCall.describeInstanceTypeOfferings instanceType],
           Except.error ⟨400, hpc7aOfferingErrDetail instanceType region⟩)
        else ([AwsCall.describeInstanceTypeOfferings instanceType], Except.ok ())
  else ([], Except.ok ())

/-- Outcome of `describe_placement_groups`. -/
inductive PgDescribe where
  /-- the response lists the group. -/
  | found
  /-- the describe succeeded but returned an empty list. -/
  | emptyList
  /-- `ClientError` with code `InvalidPlacementGroup.Unknown`. -/
  | notFoundError
  /-- `ClientError` with any other code. -/
  | otherError (code : String)
deriving DecidableEq

/-- Outcome of `create_placement_group`. -/
inductive PgCreate where
  | created
  /-- `ClientError` with code `InvalidPlacementGroup.Duplicate` (lost
  creation race, treated as success). -/
  | duplicate
  /-- `ClientError` with any other code. -/
  | failed (code : String)
deriving DecidableEq

/-- The per-account cluster placement group name. -/
def placementGroupName (accountId : String) : String :=
  "inversion-deployer-hpc-placement-group-" ++ accountId

/-- `_ensure_placement_group`: describe, create only when the describe
raised not-found, treat a duplicate-creation race as success; an empty
describe result falls through to the trailing return of the name. -/
def ensurePlacementGroup (dsc : PgDescribe) (cr : PgCreate) (accountId : String) :
    List AwsCall × Except HttpErr String :=
  let name := placementGroupName accountId
  match dsc with
  | .found => ([AwsCall.describePlacementGroups name], Except.ok name)
  | .emptyList => ([AwsCall.describePlacementGroups name], Except.ok name)
  | .notFoundError =>
    match cr with
    | .created =>
      ([AwsCall.describePlacementGroups name, AwsCall.createPlacementGroup name],
       Except.ok name)
    | .duplicate =>
      ([AwsCall.describePlacementGroups name, AwsCall.createPlacementGroup name],
       Except.ok name)
    | .failed _ =>
      ([AwsCall.describePlacementGroups name, AwsCall.createPlacementGroup name],
       Except.error ⟨500, "Failed to create placement group"⟩)
  | .otherError _ =>
    ([AwsCall.describePlacementGroups name],
     Except.error ⟨500, "Failed to check placement group"⟩)

/-- Outcome of `describe_security_groups(GroupNames=[...])` in the
subnet branch of `_launch_ec2_instance`. -/
inductive SgLookup where
  /-- the group was found, with this id. -/
  | found (sgId : String)
  /-- the describe succeeded but returned an empty list (raises the
  not-found 400 outside the `except ClientError`). -/
  | emptyList
  /-- a `ClientError`, triggering the describe-by-id fallback. -/
  | clientError
deriving DecidableEq

/-- The control-plane environment of one `_launch_ec2_instance` run. -/
structure LaunchEnv where
  /-- outcome of `_ensure_iam_role` (its internals are covered by the
  pipeline-level model, not by the launch claims). -/
  iamRole : Except HttpErr Unit
  /-- `get_instance_profile` result; `none` models a `ClientError`. -/
  instanceProfileArn : Option String
  /-- `describe_instance_type_offerings`: `none` models a
  `ClientError` (warn and continue), `some azs` the offering
  locations. -/
  offerings : Option (List String)
  /-- outcome of `describe_placement_groups`. -/
  pgDescribe : PgDescribe
  /-- outcome of `create_placement_group`. -/
  pgCreate : PgCreate
  /-- outcome of `describe_security_groups(GroupNames=...)`. -/
  sgByName : SgLookup
  /-- `describe_security_groups(GroupIds=...)` fallback; `none` models
  a `ClientError`. -/
  sgById : Option String
  /-- availability zone of `describe_subnets`; `none` models a
  `ClientError`. -/
  subnetAz : Option String

/-- The subnet branch of `_launch_ec2_instance`: group membership by
identifier (resolving the name to an id, with a by-id fallback),
`SubnetId` set, and, when a placement group is required, the placement
group with the subnet's availability zone. -/
def launchNetworkingSubnet (env : LaunchEnv) (base : RunParams)
    (sgName subnet : String) (requiresPg : Bool) (pgName : Option String) :
    List AwsCall × Except HttpErr RunParams :=
  let sgRes : List AwsCall × Except HttpErr String :=
    match env.sgByName with
    | .found sgId => ([AwsCall.describeSecurityGroupsByName sgName], Except.ok sgId)
    | .emptyList =>
      ([AwsCall.describeSecurityGroupsByName sgName],
       Except.error ⟨400, "Security group \x27" ++ sgName ++ "\x27 not found"⟩)
    | .clientError =>
      match env.sgById with
      | some sgId =>
        ([AwsCall.describeSecurityGroupsByName sgName,
          AwsCall.describeSecurityGroupsById sgName], Except.ok sgId)
      | none =>
        ([AwsCall.describeSecurityGroupsByName sgName,
          AwsCall.describeSecurityGroupsById sgName],
         Except.error ⟨400, "Failed to get security group"⟩)
  match sgRes.2 with
  | Except.error e => (sgRes.1, Except.error e)
  | Except.ok sgId =>
    let p₁ := { base with securityGroupIds := some [sgId], subnetId := some subnet }
    if requiresPg && optTruthy pgName then
      match env.subnetAz with
      | some az =>
        (sgRes.1 ++ [AwsCall.describeSubnets subnet],
         Except.ok { p₁ with placement := some ⟨pgName, some az⟩ })
      | none =>
        (sgRes.1 ++ [AwsCall.describeSubnets subnet],
         Except.error ⟨500, "Failed to get subnet availability zone"⟩)
    else (sgRes.1, Except.ok p₁)

/-- The no-subnet branch of `_launch_ec2_instance`: group membership by
name, and a `Placement` built from the required placement group and the
explicitly requested availability zone (if any). -/
def launchNetworkingNoSubnet (base : RunParams) (sgName : String)
    (requiresPg : Bool) (pgName : Option String)
    (availabilityZone : Option String) : RunParams :=
  let p₁ := { base with securityGroups := some [sgName] }
  if requiresPg && optTruthy pgName then
    if optTruthy availabilityZone then
      { p₁ with placement := some ⟨pgName, availabilityZone⟩ }
    else
      { p₁ with placement := some ⟨pgName, none⟩ }
  else if optTruthy availabilityZone then
    { p₁ with placement := some ⟨none, availabilityZone⟩ }
  else p₁

/-- The networking dispatch of `_launch_ec2_instance`: the subnet
branch runs when a (truthy) subnet was requested, the no-subnet branch
otherwise. -/
def launchNetworking (env : LaunchEnv) (base : RunParams) (sgName : String)
    (requiresPg : Bool) (pgName availabilityZone subnetId : Option String) :
    List AwsCall × Except HttpErr RunParams :=
  match subnetId with
  | some subnet =>
    if subnet = "" then
      ([], Except.ok (launchNetworkingNoSubnet base sgName requiresPg pgName availabilityZone))
    else launchNetworkingSubnet env base sgName subnet requiresPg pgName
  | none =>
    ([], Except.ok (launchNetworkingNoSubnet base sgName requiresPg pgName availabilityZone))

/-- The base `run_instances` parameters assembled before the
networking-dependent fields (`'VolumeType': volume_type or 'gp3'`
follows Python truthiness). -/
def launchBase (amiId instanceType arn rootDeviceName : String)
    (volumeSize : Nat) (volumeType : Option String)
    (repository accountId : String) : RunParams :=
  { imageId := amiId, instanceType := instanceType, iamInstanceProfileArn := arn,
    blockDeviceName := rootDeviceName, volumeSize := volumeSize,
    volumeType := (match volumeType with
      | some v => if v ≠ "" then v else "gp3"
      | none => "gp3"),
    tagName := accountId ++ "-" ++ repository ++ "-container",
    tagProject := repository, minCount := 1, maxCount := 1,
    securityGroupIds := none, securityGroups := none, subnetId := none,
    placement := none, userData := none }

/-- The `UserData` handling of `_launch_ec2_instance` (the key is set
exactly when a non-empty script was supplied; the base64 pass-through
versus re-encoding of the value is abstracted as the identity since no
claim concerns the encoding). -/
def applyUserData (p : RunParams) (userData : Option String) : RunParams :=
  if optTruthy userData then { p with userData := userData } else p

/-- `_launch_ec2_instance` up to and including the `run_instances`
submission: ensure the IAM role and instance profile, validate the
type/region combination, ensure the placement group when the type
requires one, build the networking fields from the subnet branch, and
submit.  On success the submitted request is returned; every issued
provider call is recorded in order. -/
def launchEc2 (env : LaunchEnv) (amiId instanceType sgName rootDeviceName : String)
    (volumeSize : Nat) (volumeType : Option String)
    (repository accountId region : String)
    (availabilityZone subnetId userData : Option String) :
    List AwsCall × Except HttpErr RunParams :=
  let roleName := "inversion-deployer-instance-role-" ++ accountId
  match env.iamRole with
  | Except.error e => ([AwsCall.ensureIamRole roleName], Except.error e)
  | Except.ok _ =>
  match env.instanceProfileArn with
  | none =>
    ([AwsCall.ensureIamRole roleName, AwsCall.getInstanceProfile roleName],
     Except.error ⟨500, "Failed to get instance profile"⟩)
  | some arn =>
  let vres := validateInstanceTypeRegion env.offerings instanceType region
  let calls₀ := [AwsCall.ensureIamRole roleName, AwsCall.getInstanceProfile roleName] ++ vres.1
  match vres.2 with
  | Except.error e => (calls₀, Except.error e)
  | Except.ok _ =>
  let base := launchBase amiId instanceType arn rootDeviceName volumeSize volumeType
    repository accountId
  let requiresPg := requiresClusterPlacementGroup instanceType
  let pgRes : List AwsCall × Except HttpErr (Option String) :=
    if requiresPg then
      let r := ensurePlacementGroup env.pgDescribe env.pgCreate accountId
      (r.1, r.2.map some)
    else ([], Except.ok none)
  let calls₁ := calls₀ ++ pgRes.1
  match pgRes.2 with
  | Except.error e => (calls₁, Except.error e)
  | Except.ok pgName =>
  let netRes := launchNetworking env base sgName requiresPg pgName availabilityZone subnetId
  let calls₂ := calls₁ ++ netRes.1
  match netRes.2 with
  | Except.error e => (calls₂, Except.error e)
  | Except.ok p₂ =>
  let pFinal := applyUserData p₂ userData
  (calls₂ ++ [AwsCall.runInstances pFinal], Except.ok pFinal)

/-- A concrete healthy control plane: the role and profile exist, the
type is offered, the placement group already exists, the security group
resolves by name, the subnet lookup returns a zone. -/
def hpcLaunchEnv : LaunchEnv where
  iamRole := Except.ok ()
  instanceProfileArn := some "arn:aws:iam::123456789012:instance-profile/inversion-deployer-instance-role-123456789012"
  offerings := some ["us-east-2a", "us-east-2b"]
  pgDescribe := PgDescribe.found
  pgCreate := PgCreate.created
  sgByName := SgLookup.found "sg-123"
  sgById := none
  subnetAz := some "us-east-2a"

/-! ## Trust verification retry loop

From `auth_routes.py` (`cloudformation_verify`): the retry loop around
`sts.assume_role`, with its error classification.  The successful path
(stack update check, session storage, database write) is collapsed into
the `connected` result; the failure classification is modelled in full.
Note: the `first_attempt = False` statement at the end of the
`ClientError` handler is unreachable in the source — every branch above
it raises or continues — so the loop threads the flag unchanged. -/

/-- Outcome of one `sts.assume_role` call. -/
inductive StsOutcome where
  | ok
  | clientError (code : String)
deriving DecidableEq

/-- The endpoint's observable result kind.  `trustMismatch403` carries
the expected trust identity and the backend's actual caller identity,
which the 403 detail reports. -/
inductive VerifyResult where
  /-- success; carries the reported attempt number (`attempt + 1`). -/
  | connected (attemptNumber : Nat)
  /-- the 404 whose detail is the role-not-found remediation steps. -/
  | notFound404
  /-- the 403 whose detail reports expected versus actual identity. -/
  | trustMismatch403 (expected : String) (actual : Option String)
  /-- the 500 for invalid backend credentials (not retried). -/
  | backendCreds500
  /-- the generic 401 for any other assume-role error code. -/
  | otherError401 (code : String)
  /-- the unreachable post-loop 500. -/
  | unreachable500
deriving DecidableEq

/-- The environment of one `cloudformation_verify` run. -/
structure VerifyEnv where
  /-- outcome of `sts.assume_role` on each attempt index (0-based). -/
  sts : Nat → StsOutcome
  /-- does the backend-account probe `iam_client.get_role` raise
  `NoSuchEntity`?  (consulted in the AccessDenied branch while the
  first-attempt flag is set). -/
  probeNoSuchEntity : Bool
  /-- the expected trust ARN (`TRUST_ARN` or constructed). -/
  trustArn : String
  /-- the backend's caller identity (`get_caller_identity`). -/
  callerArn : Option String

/-- The retry loop of `cloudformation_verify`: `attempt` is the current
0-based index, the next `Nat` the remaining loop iterations,
`firstAttempt` the `first_attempt` flag.  `NoSuchEntity` retries until
the final attempt; `AccessDenied` consults the backend IAM probe while
the flag is set (and the flag's reset being unreachable, it stays set);
malformed-credential codes are immediately fatal; other codes raise the
generic 401. -/
def cloudformationVerifyLoop (env : VerifyEnv) (maxAttempts : Nat) :
    Nat → Nat → Bool → VerifyResult
  | _, 0, _ => VerifyResult.unreachable500
  | attempt, remaining + 1, firstAttempt =>
    match env.sts attempt with
    | StsOutcome.ok => VerifyResult.connected (attempt + 1)
    | StsOutcome.clientError code =>
      if code = "NoSuchEntity" then
        if attempt < maxAttempts - 1 then
          cloudformationVerifyLoop env maxAttempts (attempt + 1) remaining firstAttempt
        else VerifyResult.notFound404
      else if code = "AccessDenied" then
        if firstAttempt && env.probeNoSuchEntity then VerifyResult.notFound404
        else VerifyResult.trustMismatch403 env.trustArn env.callerArn
      else if code = "InvalidClientTokenId" ∨ code = "SignatureDoesNotMatch" then
        VerifyResult.backendCreds500
      else VerifyResult.otherError401 code

/-- `cloudformation_verify` with its fixed budget of 24 attempts. -/
def cloudformationVerify (env : VerifyEnv) : VerifyResult :=
  cloudformationVerifyLoop env 24 0 24 true

/-- A run whose first attempt sees `NoSuchEntity` and whose second
attempt sees `AccessDenied`, with the backend probe reporting
`NoSuchEntity`. -/
def verifyEnvLateDenied : VerifyEnv where
  sts := fun n =>
    if n = 0 then StsOutcome.clientError "NoSuchEntity"
    else StsOutcome.clientError "AccessDenied"
  probeNoSuchEntity := true
  trustArn := "arn:aws:iam::851725483944:user/my-tool-backend"
  callerArn := some "arn:aws:iam::851725483944:user/my-tool-backend"

/-! ## Provisioning pipeline and the two deploy endpoints

From `api_server.py`: `_deploy_with_boto3` (the strictly sequential
pipeline), the synchronous endpoint `deploy` and the streaming endpoint
`deploy_stream` with the cleanup in `event_stream`'s `finally` block.
Each step's outcome is fixed by a `PipelineEnv`; the launch step
distinguishes failing before `run_instances` succeeded (no "Instance
launched:" log line, so the streaming log parser never learns an
instance id) from failing after it.  The streaming model covers a
consumer that drains the stream to its terminal event (the
disconnect-midway behaviour is a concurrency question outside this
embedding). -/

/-- Outcome of `_launch_ec2_instance` at pipeline granularity. -/
inductive LaunchOutcome where
  /-- failure before `run_instances` succeeded: no instance exists and
  no "Instance launched:" line was logged. -/
  | failBeforeCreate (e : HttpErr)
  /-- `run_instances` succeeded (the "Instance launched:" line was
  logged) but a later part of the launch step failed. -/
  | failAfterCreate (instanceId : String) (e : HttpErr)
  /-- the step returned `(instance_id, public_dns)`. -/
  | ok (instanceId publicDns : String)
deriving DecidableEq

/-- Step outcomes of one pipeline run. -/
structure PipelineEnv where
  /-- `_get_latest_ami` → `(ami_id, root_device_name)`. -/
  amiResult : Except HttpErr (String × String)
  /-- `_ensure_security_group` → group id. -/
  sgResult : Except HttpErr String
  /-- `_launch_ec2_instance`. -/
  launchResult : LaunchOutcome
  /-- `_wait_for_ssm`. -/
  ssmResult : Except HttpErr Unit
  /-- `_install_docker_on_instance`. -/
  dockerResult : Except HttpErr Unit
  /-- `_configure_aws_on_instance` (runs only with session creds). -/
  configureResult : Except HttpErr Unit
  /-- `_pull_and_run_container`. -/
  pullRunResult : Except HttpErr Unit
  /-- whether `terminate_instances` during cleanup succeeds (its
  errors are swallowed either way). -/
  terminateOk : Bool
deriving DecidableEq

/-- Pipeline-level provider calls. -/
inductive PipeCall where
  | getAmi
  | ensureSG
  | launchInstance
  | waitSsm
  | installDocker
  | configureAws
  | pullRun
  | terminateInstances (instanceId : String)
deriving DecidableEq

/-- Number of terminate-instances calls in a trace. -/
def countTerminates (calls : List PipeCall) : Nat :=
  (calls.filter (fun c => match c with
    | PipeCall.terminateInstances _ => true
    | _ => false)).length

/-- Result of one `_deploy_with_boto3` run: the ordered provider-call
trace, the returned instance identity or raised error, and the
instance id if `run_instances` succeeded at any point (the id the
streaming log parser extracts from the "Instance launched:" line). -/
structure DeployOutcome where
  calls : List PipeCall
  result : Except HttpErr (String × String)
  createdInstance : Option String
deriving DecidableEq

/-- The final container-start step of the pipeline. -/
def deployPull (env : PipelineEnv) (calls : List PipeCall)
    (iid dns : String) : DeployOutcome :=
  match env.pullRunResult with
  | Except.error e => ⟨calls ++ [PipeCall.pullRun], Except.error e, some iid⟩
  | Except.ok _ => ⟨calls ++ [PipeCall.pullRun], Except.ok (iid, dns), some iid⟩

/-- Steps 6 and 7: the optional credential configuration followed by the
container start. -/
def deployAfterDocker (env : PipelineEnv) (hasSessionCreds : Bool)
    (calls : List PipeCall) (iid dns : String) : DeployOutcome :=
  if hasSessionCreds then
    match env.configureResult with
    | Except.error e => ⟨calls ++ [PipeCall.configureAws], Except.error e, some iid⟩
    | Except.ok _ => deployPull env (calls ++ [PipeCall.configureAws]) iid dns
  else deployPull env calls iid dns

/-- `_deploy_with_boto3`: the strictly sequential pipeline, stopping at
the first failing step and raising its error. -/
def deployWithBoto3 (env : PipelineEnv) (hasSessionCreds : Bool) : DeployOutcome :=
  match env.amiResult with
  | Except.error e => ⟨[PipeCall.getAmi], Except.error e, none⟩
  | Except.ok _ =>
  match env.sgResult with
  | Except.error e => ⟨[PipeCall.getAmi, PipeCall.ensureSG], Except.error e, none⟩
  | Except.ok _ =>
  match env.launchResult with
  | LaunchOutcome.failBeforeCreate e =>
    ⟨[PipeCall.getAmi, PipeCall.ensureSG, PipeCall.launchInstance], Except.error e, none⟩
  | LaunchOutcome.failAfterCreate iid e =>
    ⟨[PipeCall.getAmi, PipeCall.ensureSG, PipeCall.launchInstance], Except.error e, some iid⟩
  | LaunchOutcome.ok iid dns =>
  match env.ssmResult with
  | Except.error e =>
    ⟨[PipeCall.getAmi, PipeCall.ensureSG, PipeCall.launchInstance, PipeCall.waitSsm],
     Except.error e, some iid⟩
  | Except.ok _ =>
  match env.dockerResult with
  | Except.error e =>
    ⟨[PipeCall.getAmi, PipeCall.ensureSG, PipeCall.launchInstance, PipeCall.waitSsm,
      PipeCall.installDocker], Except.error e, some iid⟩
  | Except.ok _ =>
    deployAfterDocker env hasSessionCreds
      [PipeCall.getAmi, PipeCall.ensureSG, PipeCall.launchInstance, PipeCall.waitSsm,
       PipeCall.installDocker] iid dns

/-- The synchronous `POST /api/deploy` endpoint around the pipeline: it
runs `_deploy_with_boto3` and returns or re-raises; it has no cleanup
of its own. -/
def deploySync (env : PipelineEnv) (hasSessionCreds : Bool) : DeployOutcome :=
  deployWithBoto3 env hasSessionCreds

/-- Terminal event of the streaming endpoint. -/
inductive StreamTerminal where
  | complete (instanceId publicDns : String)
  | error (detail : String)
deriving DecidableEq

/-- The streaming `GET /api/deploy/stream` endpoint, with its
`finally`-block cleanup: when the deployment failed and an instance id
was extracted from the logs, exactly one terminate-instances call is
issued after the terminal error event, and its outcome (`terminateOk`)
is swallowed. -/
def deployStream (env : PipelineEnv) (hasSessionCreds : Bool) :
    List PipeCall × StreamTerminal :=
  let r := deployWithBoto3 env hasSessionCreds
  match r.result with
  | Except.ok (iid, dns) => (r.calls, StreamTerminal.complete iid dns)
  | Except.error e =>
    match r.createdInstance with
    | some iid =>
      (r.calls ++ [PipeCall.terminateInstances iid], StreamTerminal.error e.detail)
    | none => (r.calls, StreamTerminal.error e.detail)

/-- A run whose Docker-install step fails after the instance is
created. -/
def pipelineEnvDockerFails : PipelineEnv where
  amiResult := Except.ok ("ami-0abc", "/dev/xvda")
  sgResult := Except.ok "sg-123"
  launchResult := LaunchOutcome.ok "i-0abc123" "ec2-1-2-3-4.compute.amazonaws.com"
  ssmResult := Except.ok ()
  dockerResult := Except.error ⟨500, "Docker installation failed: yum error"⟩
  configureResult := Except.ok ()
  pullRunResult := Except.ok ()
  terminateOk := true

/-- Generic first-match characterisation of the milestone scan: it
returns `some pct` exactly when the table splits as
`pre ++ (text, pct) :: post` with `text` matching the line and no entry
of `pre` matching it. -/
theorem milestoneScan_eq_some_iff (entryLower : String → String)
    (table : List (String × Nat)) (lower : String) (pct : Nat) :
    milestoneScan entryLower table lower = some pct ↔
      ∃ pre text post, table = pre ++ (text, pct) :: post ∧
        pyIn (entryLower text) lower = true ∧
        ∀ q ∈ pre, pyIn (entryLower q.1) lower = false := by
  induction table with
  | nil =>
    constructor
    · intro h
      simp [milestoneScan] at h
    · rintro ⟨pre, text, post, heq, -, -⟩
      exact absurd heq (by cases pre <;> simp)
  | cons hd tl ih =>
    obtain ⟨text₀, pct₀⟩ := hd
    by_cases hmatch : pyIn (entryLower text₀) lower = true
    · rw [milestoneScan, if_pos hmatch]
      constructor
      · intro h
        injection h with h
        exact ⟨[], text₀, tl, by simp [h], hmatch, by simp⟩
      · rintro ⟨pre, text, post, heq, hmatch2, hpre⟩
        cases pre with
        | nil =>
          simp only [List.nil_append] at heq
          injection heq with h1 h2
          rw [Prod.mk.injEq] at h1
          rw [h1.2]
        | cons p ps =>
          exfalso
          simp only [List.cons_append] at heq
          injection heq with h1 h2
          have hfalse := hpre p (List.mem_cons_self p ps)
          rw [← h1] at hfalse
          rw [hfalse] at hmatch
          exact Bool.false_ne_true hmatch
    · rw [milestoneScan, if_neg hmatch, ih]
      constructor
      · rintro ⟨pre, text, post, heq, hm, hpre⟩
        refine ⟨(text₀, pct₀) :: pre, text, post, by simp [heq], hm, ?_⟩
        intro q hq
        rcases List.mem_cons.mp hq with h | h
        · rw [h]
          exact Bool.eq_false_iff.mpr (fun hb => hmatch hb)
        · exact hpre q h
      · rintro ⟨pre, text, post, heq, hm, hpre⟩
        cases pre with
        | nil =>
          exfalso
          simp only [List.nil_append] at heq
          injection heq with h1 h2
          rw [Prod.mk.injEq] at h1
          rw [h1.1] at hmatch
          exact hmatch hm
        | cons p ps =>
          simp only [List.cons_append] at heq
          injection heq with h1 h2
          exact ⟨ps, text, post, h2, hm,
            fun q hq => hpre q (List.mem_cons_of_mem p hq)⟩

/-- C3: for every log line, both milestone matchers scan their fixed
table in table order and emit the percentage of the first entry whose
substring occurs case-insensitively in the line; at most one milestone
event is emitted per line; no state is carried across lines (processing
a concatenation of line lists is the concatenation of the per-list
events); and in both milestone tables the percentages are monotonically
non-decreasing in table order. -/
theorem milestone_first_match_stateless_monotone :
    (∀ line pct, streamMilestone line = some pct ↔
      ∃ pre text post, AwsMilestones = pre ++ (text, pct) :: post ∧
        pyIn text (lowerStr line) = true ∧
        ∀ q ∈ pre, pyIn q.1 (lowerStr line) = false) ∧
    (∀ line pct, workerMilestone line = some pct ↔
      ∃ pre text post, workerMilestones = pre ++ (text, pct) :: post ∧
        pyIn (lowerStr text) (lowerStr line) = true ∧
        ∀ q ∈ pre, pyIn (lowerStr q.1) (lowerStr line) = false) ∧
    (∀ emit lines₁ lines₂, progressEvents emit (lines₁ ++ lines₂) =
      progressEvents emit lines₁ ++ progressEvents emit lines₂) ∧
    (∀ emit line, (progressEvents emit [line]).length ≤ 1) ∧
    List.Chain' (· ≤ ·) (AwsMilestones.map Prod.snd) ∧
    List.Chain' (· ≤ ·) (workerMilestones.map Prod.snd) := by
  refine ⟨?_, ?_, ?_, ?_,
    by norm_num [AwsMilestones, List.chain'_cons],
    by norm_num [workerMilestones, List.chain'_cons]⟩
  · intro line pct
    simpa using milestoneScan_eq_some_iff id AwsMilestones (lowerStr line) pct
  · intro line pct
    exact milestoneScan_eq_some_iff lowerStr workerMilestones (lowerStr line) pct
  · intro emit lines₁ lines₂
    simp [progressEvents]
  · intro emit line
    cases h : emit line <;> simp [progressEvents, h]

/-- Witness for the milestone claim: the streaming matcher maps the
Docker-install log line to the 60 percent milestone, and the
first-match characterisation holds there. -/
theorem milestone_first_match_stateless_monotone_witness :
    ∃ pre text post, AwsMilestones = pre ++ (text, 60) :: post ∧
      pyIn text (lowerStr "2024-01-01T00:00:00Z - Installing Docker and prerequisites") = true ∧
      ∀ q ∈ pre, pyIn q.1 (lowerStr "2024-01-01T00:00:00Z - Installing Docker and prerequisites") = false :=
  (milestone_first_match_stateless_monotone.1
    "2024-01-01T00:00:00Z - Installing Docker and prerequisites" 60).mp (by decide)

/-- If no attempt in the window observes readiness, the loop exhausts
the window, sleeping 10 seconds between consecutive attempts. -/
theorem waitForSsmGo_exhaust (probe : Nat → SsmAttempt) (maxRetries : Nat) :
    ∀ remaining attempt,
      (∀ j, j < remaining → ssmReady (probe (attempt + j)) = false) →
      waitForSsmGo probe maxRetries attempt remaining =
        (Except.error (ssmFailDetail maxRetries), List.replicate (remaining - 1) 10) := by
  intro remaining
  induction remaining with
  | zero => intro attempt _; rfl
  | succ r ih =>
    intro attempt h
    have h0 : ssmReady (probe attempt) = false := by simpa using h 0 (Nat.succ_pos r)
    rw [waitForSsmGo, if_neg (by simp [h0])]
    have hrec := ih (attempt + 1) (fun j hj => by
      have := h (j + 1) (Nat.succ_lt_succ hj)
      simpa [Nat.add_assoc, Nat.add_comm 1 j] using this)
    rw [hrec]
    cases r with
    | zero => simp
    | succ r₂ => simp [List.replicate_succ]

/-- If attempt `k` inside the window is the first to observe readiness,
the loop returns successfully at that attempt, having slept 10 seconds
before each of the `k` retries. -/
theorem waitForSsmGo_first_ready (probe : Nat → SsmAttempt) (maxRetries : Nat) :
    ∀ remaining attempt k, k < remaining →
      ssmReady (probe (attempt + k)) = true →
      (∀ j, j < k → ssmReady (probe (attempt + j)) = false) →
      waitForSsmGo probe maxRetries attempt remaining =
        (Except.ok (attempt + k), List.replicate k 10) := by
  intro remaining
  induction remaining with
  | zero => intro attempt k hk; omega
  | succ r ih =>
    intro attempt k hk hready hbefore
    cases k with
    | zero =>
      rw [waitForSsmGo, if_pos (by simpa using hready)]
      simp
    | succ k₂ =>
      have h0 : ssmReady (probe attempt) = false := by
        simpa using hbefore 0 (Nat.succ_pos k₂)
      rw [waitForSsmGo, if_neg (by simp [h0])]
      have hrec := ih (attempt + 1) k₂ (by omega)
        (by simpa [Nat.add_assoc, Nat.add_comm 1 k₂] using hready)
        (fun j hj => by
          have := hbefore (j + 1) (Nat.succ_lt_succ hj)
          simpa [Nat.add_assoc, Nat.add_comm 1 j] using this)
      rw [hrec]
      have hr : 1 ≤ r := by omega
      simp [hr, List.replicate_succ, Nat.add_assoc, Nat.add_comm 1 k₂]

/-- C4: `_wait_for_ssm` returns successfully at the first attempt whose
probe invocation reaches status Success or status Failed (a dispatched
command that fails counts as readiness, not as a failure); any other
outcome is retried, with the 30 attempts spaced 10 seconds apart, and
the error is raised only after all 30 attempts are exhausted. -/
theorem waitForSsm_first_ready_or_exhaust (probe : Nat → SsmAttempt) :
    (∀ k, k < 30 → ssmReady (probe k) = true →
      (∀ j, j < k → ssmReady (probe j) = false) →
      waitForSsm probe = (Except.ok k, List.replicate k 10)) ∧
    ((∀ j, j < 30 → ssmReady (probe j) = false) →
      waitForSsm probe = (Except.error (ssmFailDetail 30), List.replicate 29 10)) ∧
    (∀ s, ssmReady (SsmAttempt.invocationStatus s) =
      (s = "Success" || s = "Failed")) := by
  refine ⟨?_, ?_, fun _ => rfl⟩
  · intro k hk hready hbefore
    have := waitForSsmGo_first_ready probe 30 30 0 k hk
      (by simpa using hready) (fun j hj => by simpa using hbefore j hj)
    simpa [waitForSsm] using this
  · intro h
    have := waitForSsmGo_exhaust probe 30 30 0 (fun j hj => by simpa using h j hj)
    simpa [waitForSsm] using this

/-- Witness for the SSM-readiness claim: with two pending probes
followed by a dispatched-but-Failed invocation, the wait returns
successfully on the third attempt after two 10-second sleeps. -/
theorem waitForSsm_first_ready_or_exhaust_witness :
    waitForSsm ssmProbeFailedThird = (Except.ok 2, List.replicate 2 10) :=
  (waitForSsm_first_ready_or_exhaust ssmProbeFailedThird).1 2 (by decide)
    (by decide) (fun j hj => by interval_cases j <;> decide)

/-- Unfolding of the container-start classifier on a failed command. -/
theorem pullAndRunContainer_failed (repository output error : String) :
    pullAndRunContainer repository false output error =
      (if (pyIn "manifest unknown" (if error ≠ "" then error else output) ||
           pyIn "Requested image not found" (if error ≠ "" then error else output)) = true then
        Except.error ⟨404, imageNotFoundDetail repository (if error ≠ "" then error else output)⟩
      else
        Except.error ⟨500, "Container deployment failed: " ++
          (if error ≠ "" then error else output)⟩) := rfl

/-- C7: when the container-start command fails and its message mentions
a missing image manifest, `_pull_and_run_container` raises the distinct
actionable 404 carrying the step-by-step remediation text; every other
command failure raises the generic 500 deployment-failure error; a
successful command raises nothing. -/
theorem pullAndRun_missing_image_actionable :
    (∀ repository output error,
      (pyIn "manifest unknown" (if error ≠ "" then error else output) ||
       pyIn "Requested image not found" (if error ≠ "" then error else output)) = true →
      pullAndRunContainer repository false output error =
        Except.error ⟨404, imageNotFoundDetail repository (if error ≠ "" then error else output)⟩) ∧
    (∀ repository output error,
      (pyIn "manifest unknown" (if error ≠ "" then error else output) ||
       pyIn "Requested image not found" (if error ≠ "" then error else output)) = false →
      pullAndRunContainer repository false output error =
        Except.error ⟨500, "Container deployment failed: " ++
          (if error ≠ "" then error else output)⟩) ∧
    (∀ repository output error,
      pullAndRunContainer repository true output error = Except.ok ()) := by
  refine ⟨?_, ?_, fun _ _ _ => rfl⟩
  · intro repository output error h
    rw [pullAndRunContainer_failed, if_pos h]
  · intro repository output error h
    rw [pullAndRunContainer_failed,
      if_neg (fun hc => Bool.false_ne_true (h.symm.trans hc))]

set_option maxRecDepth 4096 in
/-- Witness for the missing-image claim: an empty repository failure
message produces the 404 whose detail carries the remediation steps,
not the generic 500. -/
theorem pullAndRun_missing_image_actionable_witness :
    pullAndRunContainer "fbpic" false "" "manifest unknown" =
      Except.error ⟨404, imageNotFoundDetail "fbpic" "manifest unknown"⟩ ∧
    pyIn "3. Upload the tar file" (imageNotFoundDetail "fbpic" "manifest unknown") = true ∧
    (404 : Nat) ≠ 500 := by
  refine ⟨?_, by decide, by decide⟩
  exact pullAndRun_missing_image_actionable.1 "fbpic" "" "manifest unknown" (by decide)

/-- Removing a key from the store makes it unfindable. -/
theorem storeLookup_storePop (store : SessionStore) (sid : String) :
    storeLookup (storePop store sid) sid = none := by
  induction store with
  | nil => rfl
  | cons hd tl ih =>
    by_cases h : hd.1 = sid
    · simp only [storePop, storeLookup] at ih ⊢
      simp [h, ih, storePop, storeLookup]
    · simp only [storePop, storeLookup] at ih ⊢
      simp [h, ih, storePop, storeLookup, List.find?]

/-- C8: every read of the credential store raises 401 both when the
session id is absent from the store and when the stored expiry has
passed; the first read past the expiry removes the entry; a successful
read returns unexpired credentials and leaves the store unchanged; a
missing session id is also a 401. -/
theorem getSessionCredentials_lazy_expiry (store : SessionStore) (sid : String)
    (now : Int) (hsid : sid ≠ "") :
    (storeLookup store sid = none →
      getSessionCredentials store (some sid) now =
        (store, Except.error ⟨401, "Invalid or expired session"⟩)) ∧
    (∀ sess, storeLookup store sid = some sess → sess.expiration < now →
      getSessionCredentials store (some sid) now =
        (storePop store sid, Except.error ⟨401, "Session expired. Please login again."⟩) ∧
      storeLookup (getSessionCredentials store (some sid) now).1 sid = none) ∧
    (∀ st' sess, getSessionCredentials store (some sid) now = (st', Except.ok sess) →
      now ≤ sess.expiration ∧ st' = store ∧ storeLookup store sid = some sess) ∧
    getSessionCredentials store none now =
      (store, Except.error ⟨401, "No session ID provided"⟩) := by
  refine ⟨?_, ?_, ?_, rfl⟩
  · intro h
    simp only [getSessionCredentials, if_neg hsid, h]
  · intro sess hfind hexp
    have hres : getSessionCredentials store (some sid) now =
        (storePop store sid, Except.error ⟨401, "Session expired. Please login again."⟩) := by
      simp only [getSessionCredentials, if_neg hsid, hfind, if_pos hexp]
    exact ⟨hres, by rw [hres]; exact storeLookup_storePop store sid⟩
  · intro st' sess h
    simp only [getSessionCredentials, if_neg hsid] at h
    cases hfind : storeLookup store sid with
    | none =>
      rw [hfind] at h
      exact absurd (congrArg Prod.snd h) (by simp)
    | some sess₀ =>
      simp only [hfind] at h
      by_cases hexp : sess₀.expiration < now
      · rw [if_pos hexp] at h
        exact absurd (congrArg Prod.snd h) (by simp)
      · rw [if_neg hexp] at h
        have h1 := congrArg Prod.fst h
        have h2 := congrArg Prod.snd h
        simp only at h1 h2
        have h3 : sess₀ = sess := by
          have := congrArg (fun x => match x with
            | Except.ok v => v
            | Except.error _ => sess₀) h2
          simpa using this
        exact ⟨by rw [← h3]; omega, h1.symm, congrArg some h3⟩

/-- Witness for the credential-store claim: a store holding one session
that expired at time 5, read at time 10, yields the 401 and removes the
entry. -/
theorem getSessionCredentials_lazy_expiry_witness :
    getSessionCredentials
        [("sid-1", ⟨"AK", "SK", "TOK", 5, "us-east-1", "arn:r", some "123456789012"⟩)]
        (some "sid-1") 10 =
      ([], Except.error ⟨401, "Session expired. Please login again."⟩) :=
  ((getSessionCredentials_lazy_expiry
      [("sid-1", ⟨"AK", "SK", "TOK", 5, "us-east-1", "arn:r", some "123456789012"⟩)]
      "sid-1" 10 (by decide)).2.1
    ⟨"AK", "SK", "TOK", 5, "us-east-1", "arn:r", some "123456789012"⟩
    rfl (by decide)).1

/-- C9: the security-group ensure operation is idempotent: when the
group already exists the call issues only the describe (zero mutating
calls) and returns the stored identifier, and a repeated call after any
first call performs zero mutating calls, returns the same identifier,
and leaves the provider state unchanged. -/
theorem ensureSecurityGroup_idempotent (st : SgState) (name : String) :
    (∀ sgId, (st.groups.find? (fun p => p.1 == name)).map Prod.snd = some sgId →
      ensureSecurityGroup st name = (st, [SgCall.describeSecurityGroups name], sgId)) ∧
    (let r₁ := ensureSecurityGroup st name
     let r₂ := ensureSecurityGroup r₁.1 name
     r₂.1 = r₁.1 ∧ r₂.2.2 = r₁.2.2 ∧ r₂.2.1.filter sgMutating = []) := by
  constructor
  · intro sgId h
    simp [ensureSecurityGroup, h]
  · rcases h : (st.groups.find? (fun p => p.1 == name)).map Prod.snd with - | sgId
    · simp [ensureSecurityGroup, h, List.find?, sgMutating]
    · simp [ensureSecurityGroup, h, sgMutating]

/-- Witness for the security-group idempotence claim: with the group
already present, the call issues only a describe and returns the stored
identifier. -/
theorem ensureSecurityGroup_idempotent_witness :
    ensureSecurityGroup ⟨[("inversion-deployer-default-123456789012", "sg-0")], 1⟩
        "inversion-deployer-default-123456789012" =
      (⟨[("inversion-deployer-default-123456789012", "sg-0")], 1⟩,
       [SgCall.describeSecurityGroups "inversion-deployer-default-123456789012"], "sg-0") :=
  (ensureSecurityGroup_idempotent
    ⟨[("inversion-deployer-default-123456789012", "sg-0")], 1⟩
    "inversion-deployer-default-123456789012").1 "sg-0" (by decide)

/-- C10: in the synchronous deploy endpoint with session-based
authentication, when the stored credentials carry an account id the
request body's account id is overwritten with it before the pipeline
runs, so two requests identical except for the body's account id are
handed to the pipeline as the same pair. -/
theorem deploy_overrides_account_id (store : SessionStore) (hdr : Option String)
    (body : DeployBody) (now : Int) (creds : AwsSessionRec) (a : String)
    (htruthy : optTruthy hdr = true)
    (hcreds : (getSessionCredentials store hdr now).2 = Except.ok creds)
    (hacct : creds.accountId = some a) :
    deployPrepare store hdr body now =
      Except.ok ({ body with accountId := a }, some creds) ∧
    (∀ body₂ : DeployBody, { body₂ with accountId := body.accountId } = body →
      deployPrepare store hdr body₂ now = deployPrepare store hdr body now) := by
  have hmain : ∀ b : DeployBody, deployPrepare store hdr b now =
      Except.ok ({ b with accountId := a }, some creds) := by
    intro b
    simp [deployPrepare, htruthy, hcreds, hacct]
  refine ⟨hmain body, ?_⟩
  intro body₂ hsame
  rw [hmain body₂, hmain body]
  cases body; cases body₂
  simp_all

/-- Witness for the account-id override claim: two bodies differing
only in the account id produce the same pipeline input, with the
session's account id substituted. -/
theorem deploy_overrides_account_id_witness :
    deployPrepare
        [("sid-1", ⟨"AK", "SK", "TOK", 100, "us-east-1", "arn:r", some "123456789012"⟩)]
        (some "sid-1")
        ⟨none, "us-east-2", "999999999999", "fbpic", "hpc7a.96xlarge", none, 30,
          some "gp3", none, none, none, none, none⟩ 10 =
      Except.ok (⟨none, "us-east-2", "123456789012", "fbpic", "hpc7a.96xlarge", none, 30,
          some "gp3", none, none, none, none, none⟩,
        some ⟨"AK", "SK", "TOK", 100, "us-east-1", "arn:r", some "123456789012"⟩) :=
  (deploy_overrides_account_id
    [("sid-1", ⟨"AK", "SK", "TOK", 100, "us-east-1", "arn:r", some "123456789012"⟩)]
    (some "sid-1")
    ⟨none, "us-east-2", "999999999999", "fbpic", "hpc7a.96xlarge", none, 30,
      some "gp3", none, none, none, none, none⟩ 10
    ⟨"AK", "SK", "TOK", 100, "us-east-1", "arn:r", some "123456789012"⟩
    "123456789012" (by decide) rfl rfl).1

/-- The placement group name always has a non-empty prefix. -/
theorem placementGroupName_ne_empty (accountId : String) :
    placementGroupName accountId ≠ "" := by
  intro h
  have hdata := congrArg String.data h
  rw [placementGroupName] at hdata
  rw [String.data_append] at hdata
  have : ("inversion-deployer-hpc-placement-group-").data = [] := by
    cases hap : ("inversion-deployer-hpc-placement-group-").data with
    | nil => rfl
    | cons c cs =>
      rw [hap] at hdata
      exact absurd hdata (by simp)
  exact absurd this (by decide)

/-- The truthiness of the placement group name. -/
theorem optTruthy_placementGroupName (accountId : String) :
    optTruthy (some (placementGroupName accountId)) = true := by
  simp [optTruthy, placementGroupName_ne_empty]

/-- The validation step never submits an instance. -/
theorem validate_calls_not_run (offerings : Option (List String))
    (instanceType region : String) :
    ∀ c ∈ (validateInstanceTypeRegion offerings instanceType region).1,
      isRunInstances c = false := by
  unfold validateInstanceTypeRegion
  repeat' split
  all_goals simp [isRunInstances]

/-- The placement-group ensurer always issues its describe call first
and never submits an instance. -/
theorem ensurePlacementGroup_calls (d : PgDescribe) (c : PgCreate) (a : String) :
    AwsCall.describePlacementGroups (placementGroupName a) ∈ (ensurePlacementGroup d c a).1 ∧
    ∀ call ∈ (ensurePlacementGroup d c a).1, isRunInstances call = false := by
  cases d <;> cases c <;> simp [ensurePlacementGroup, isRunInstances]

/-- The ensurer resolves to the fixed name or to an error. -/
theorem ensurePlacementGroup_result (d : PgDescribe) (c : PgCreate) (a : String) :
    (ensurePlacementGroup d c a).2 = Except.ok (placementGroupName a) ∨
    ∃ e, (ensurePlacementGroup d c a).2 = Except.error e := by
  cases d <;> cases c <;> simp [ensurePlacementGroup]

/-- The subnet networking branch never submits an instance. -/
theorem launchNetworkingSubnet_calls_not_run (env : LaunchEnv) (base : RunParams)
    (sgName subnet : String) (requiresPg : Bool) (pgName : Option String) :
    ∀ call ∈ (launchNetworkingSubnet env base sgName subnet requiresPg pgName).1,
      isRunInstances call = false := by
  unfold launchNetworkingSubnet
  repeat' split
  all_goals simp [isRunInstances]

/-- The networking stage never submits an instance. -/
theorem launchNetworking_calls_not_run (env : LaunchEnv) (base : RunParams)
    (sgName : String) (requiresPg : Bool) (pgName availabilityZone subnetId : Option String) :
    ∀ call ∈ (launchNetworking env base sgName requiresPg pgName availabilityZone subnetId).1,
      isRunInstances call = false := by
  rcases subnetId with - | s
  · simp [launchNetworking]
  · by_cases hs : s = ""
    · simp [launchNetworking, hs]
    · have heq : launchNetworking env base sgName requiresPg pgName availabilityZone (some s) =
          launchNetworkingSubnet env base sgName s requiresPg pgName := by
        simp [launchNetworking, hs]
      rw [heq]
      exact launchNetworkingSubnet_calls_not_run env base sgName s requiresPg pgName

/-- Shape of the subnet branch: `SubnetId` set, groups-by-name left at
the base value, membership expressed by a single identifier. -/
theorem launchNetworkingSubnet_shape (env : LaunchEnv) (base : RunParams)
    (sgName subnet : String) (requiresPg : Bool) (pgName : Option String)
    (p : RunParams)
    (h : (launchNetworkingSubnet env base sgName subnet requiresPg pgName).2 = Except.ok p) :
    p.subnetId = some subnet ∧ p.securityGroups = base.securityGroups ∧
    ∃ sgId, p.securityGroupIds = some [sgId] := by
  unfold launchNetworkingSubnet at h
  repeat' split at h
  all_goals (simp at h; try (subst h; simp))

/-- Shape of the no-subnet branch: groups by name, identifiers and
subnet left at the base value, requested zone passed directly in the
placement, and the full placement when a placement group is in play. -/
theorem launchNetworkingNoSubnet_shape (base : RunParams) (sgName : String)
    (requiresPg : Bool) (pgName availabilityZone : Option String) :
    (launchNetworkingNoSubnet base sgName requiresPg pgName availabilityZone).securityGroups =
      some [sgName] ∧
    (launchNetworkingNoSubnet base sgName requiresPg pgName availabilityZone).securityGroupIds =
      base.securityGroupIds ∧
    (launchNetworkingNoSubnet base sgName requiresPg pgName availabilityZone).subnetId =
      base.subnetId ∧
    (optTruthy availabilityZone = true →
      ∃ pl, (launchNetworkingNoSubnet base sgName requiresPg pgName availabilityZone).placement =
        some pl ∧ pl.availabilityZone = availabilityZone) ∧
    (requiresPg = true → optTruthy pgName = true →
      (optTruthy availabilityZone = true →
        (launchNetworkingNoSubnet base sgName requiresPg pgName availabilityZone).placement =
          some ⟨pgName, availabilityZone⟩) ∧
      (optTruthy availabilityZone = false →
        (launchNetworkingNoSubnet base sgName requiresPg pgName availabilityZone).placement =
          some ⟨pgName, none⟩)) := by
  unfold launchNetworkingNoSubnet
  repeat' split
  all_goals simp_all

/-- The user-data step only sets the `UserData` field. -/
theorem applyUserData_fields (p : RunParams) (u : Option String) :
    (applyUserData p u).securityGroupIds = p.securityGroupIds ∧
    (applyUserData p u).securityGroups = p.securityGroups ∧
    (applyUserData p u).subnetId = p.subnetId ∧
    (applyUserData p u).placement = p.placement := by
  by_cases h : optTruthy u = true <;> simp [applyUserData, h]

/-- Taking the prefix before the first create-instance submission. -/
theorem takeWhile_calls_append (pre : List AwsCall) (x : AwsCall)
    (h : ∀ c ∈ pre, isRunInstances c = false) (hx : isRunInstances x = true) :
    (pre ++ [x]).takeWhile (fun c => !(isRunInstances c)) = pre := by
  induction pre with
  | nil => simp [List.takeWhile, hx]
  | cons hd tl ih =>
    have hhd : isRunInstances hd = false := h hd (List.mem_cons_self hd tl)
    have htl := ih (fun c hc => h c (List.mem_cons_of_mem hd hc))
    simp [List.takeWhile_cons, hhd, htl]

/-- A successful launch decomposes into its stages: the instance
profile resolved, the placement group was ensured exactly when the type
requires one, the networking stage succeeded, the submitted request is
the networking result with user data applied, and the trace is the
stage calls (none of them a submission, the placement-group describe
among them when required) followed by the single submission. -/
theorem launchEc2_ok_decomp (env : LaunchEnv)
    (amiId instanceType sgName rootDeviceName : String) (volumeSize : Nat)
    (volumeType : Option String) (repository accountId region : String)
    (availabilityZone subnetId userData : Option String) (p : RunParams)
    (hok : (launchEc2 env amiId instanceType sgName rootDeviceName volumeSize
      volumeType repository accountId region availabilityZone subnetId userData).2 =
      Except.ok p) :
    ∃ (arn : String) (pgName : Option String) (p₂ : RunParams) (pre : List AwsCall),
      env.instanceProfileArn = some arn ∧
      pgName = (if requiresClusterPlacementGroup instanceType = true
        then some (placementGroupName accountId) else none) ∧
      (launchNetworking env
        (launchBase amiId instanceType arn rootDeviceName volumeSize volumeType
          repository accountId)
        sgName (requiresClusterPlacementGroup instanceType) pgName availabilityZone
        subnetId).2 = Except.ok p₂ ∧
      p = applyUserData p₂ userData ∧
      (launchEc2 env amiId instanceType sgName rootDeviceName volumeSize
        volumeType repository accountId region availabilityZone subnetId userData).1 =
        pre ++ [AwsCall.runInstances p] ∧
      (∀ c ∈ pre, isRunInstances c = false) ∧
      (requiresClusterPlacementGroup instanceType = true →
        AwsCall.describePlacementGroups (placementGroupName accountId) ∈ pre) := by
  obtain ⟨iamRole, arnOpt, offerings, pgD, pgC, sgN, sgI, subAz⟩ := env
  cases iamRole with
  | error e => simp [launchEc2] at hok
  | ok u =>
  cases arnOpt with
  | none => simp [launchEc2] at hok
  | some arn =>
  rcases hv : (validateInstanceTypeRegion offerings instanceType region).2 with e | u₂
  · simp [launchEc2, hv] at hok
  · cases hreq : requiresClusterPlacementGroup instanceType with
    | false =>
      rcases hnet : (launchNetworking ⟨Except.ok u, some arn, offerings, pgD, pgC, sgN, sgI, subAz⟩
          (launchBase amiId instanceType arn rootDeviceName volumeSize volumeType
            repository accountId)
          sgName false none availabilityZone subnetId).2 with e | p₂
      · simp [launchEc2, hv, hreq, hnet] at hok
      · have hp : p = applyUserData p₂ userData := by
          simp [launchEc2, hv, hreq, hnet] at hok
          exact hok.symm
        refine ⟨arn, none, p₂,
          AwsCall.ensureIamRole ("inversion-deployer-instance-role-" ++ accountId) ::
            AwsCall.getInstanceProfile ("inversion-deployer-instance-role-" ++ accountId) ::
            ((validateInstanceTypeRegion offerings instanceType region).1 ++
              (launchNetworking ⟨Except.ok u, some arn, offerings, pgD, pgC, sgN, sgI, subAz⟩
                (launchBase amiId instanceType arn rootDeviceName volumeSize volumeType
                  repository accountId)
                sgName false none availabilityZone subnetId).1),
          rfl, by simp [hreq], hnet, hp,
          by simp [launchEc2, hv, hreq, hnet, hp, List.append_assoc], ?_, by simp [hreq]⟩
        intro c hc
        simp only [List.mem_cons, List.mem_append] at hc
        rcases hc with hc | hc | hc | hc
        · rw [hc]; rfl
        · rw [hc]; rfl
        · exact validate_calls_not_run offerings instanceType region c hc
        · exact launchNetworking_calls_not_run _ _ _ _ _ _ _ c hc
    | true =>
      rcases ensurePlacementGroup_result pgD pgC accountId with hpg | ⟨e, hpg⟩
      · rcases hnet : (launchNetworking ⟨Except.ok u, some arn, offerings, pgD, pgC, sgN, sgI, subAz⟩
            (launchBase amiId instanceType arn rootDeviceName volumeSize volumeType
              repository accountId)
            sgName true (some (placementGroupName accountId)) availabilityZone subnetId).2
            with e | p₂
        · simp [launchEc2, hv, hreq, hpg, hnet, Except.map] at hok
        · have hp : p = applyUserData p₂ userData := by
            simp [launchEc2, hv, hreq, hpg, hnet, Except.map] at hok
            exact hok.symm
          refine ⟨arn, some (placementGroupName accountId), p₂,
            AwsCall.ensureIamRole ("inversion-deployer-instance-role-" ++ accountId) ::
              AwsCall.getInstanceProfile ("inversion-deployer-instance-role-" ++ accountId) ::
              ((validateInstanceTypeRegion offerings instanceType region).1 ++
                ((ensurePlacementGroup pgD pgC accountId).1 ++
                  (launchNetworking ⟨Except.ok u, some arn, offerings, pgD, pgC, sgN, sgI, subAz⟩
                    (launchBase amiId instanceType arn rootDeviceName volumeSize volumeType
                      repository accountId)
                    sgName true (some (placementGroupName accountId)) availabilityZone
                    subnetId).1)),
            rfl, by simp [hreq], hnet, hp,
            by simp [launchEc2, hv, hreq, hpg, hnet, hp, Except.map, List.append_assoc], ?_, ?_⟩
          · intro c hc
            simp only [List.mem_cons, List.mem_append] at hc
            rcases hc with hc | hc | hc | hc | hc
            · rw [hc]; rfl
            · rw [hc]; rfl
            · exact validate_calls_not_run offerings instanceType region c hc
            · exact (ensurePlacementGroup_calls pgD pgC accountId).2 c hc
            · exact launchNetworking_calls_not_run _ _ _ _ _ _ _ c hc
          · intro _
            simp only [List.mem_cons, List.mem_append]
            right; right; right; left
            exact (ensurePlacementGroup_calls pgD pgC accountId).1
      · simp [launchEc2, hv, hreq, hpg, Except.map] at hok

/-- C6: the create-instance request expresses security-group membership
by identifier together with `SubnetId` whenever a subnet is requested,
and by name, with any explicitly requested availability zone passed
directly in the `Placement` field, whenever no subnet is requested. -/
theorem launch_sg_membership_shape (env : LaunchEnv)
    (amiId instanceType sgName rootDeviceName : String) (volumeSize : Nat)
    (volumeType : Option String) (repository accountId region : String)
    (availabilityZone subnetId userData : Option String) (p : RunParams)
    (hok : (launchEc2 env amiId instanceType sgName rootDeviceName volumeSize
      volumeType repository accountId region availabilityZone subnetId userData).2 =
      Except.ok p) :
    (optTruthy subnetId = true →
      p.subnetId = subnetId ∧ p.securityGroups = none ∧
      ∃ sgId, p.securityGroupIds = some [sgId]) ∧
    (optTruthy subnetId = false →
      p.securityGroups = some [sgName] ∧ p.securityGroupIds = none ∧
      p.subnetId = none ∧
      (optTruthy availabilityZone = true →
        ∃ pl, p.placement = some pl ∧ pl.availabilityZone = availabilityZone)) := by
  obtain ⟨arn, pgName, p₂, pre, -, -, hnet, hp, -, -, -⟩ :=
    launchEc2_ok_decomp env amiId instanceType sgName rootDeviceName volumeSize
      volumeType repository accountId region availabilityZone subnetId userData p hok
  obtain ⟨hf1, hf2, hf3, hf4⟩ := applyUserData_fields p₂ userData
  constructor
  · intro htruthy
    rcases subnetId with - | s
    · exact absurd htruthy (by simp [optTruthy])
    · have hs : ¬ s = "" := by
        intro hs0
        rw [hs0] at htruthy
        exact absurd htruthy (by simp [optTruthy])
      rw [launchNetworking, if_neg hs] at hnet
      obtain ⟨g1, g2, sgId, g3⟩ := launchNetworkingSubnet_shape _ _ _ _ _ _ _ hnet
      rw [hp]
      refine ⟨by rw [hf3, g1], by rw [hf2, g2]; rfl, sgId, by rw [hf1, g3]⟩
  · intro hfalsy
    have hval : p₂ = launchNetworkingNoSubnet
        (launchBase amiId instanceType arn rootDeviceName volumeSize volumeType
          repository accountId)
        sgName (requiresClusterPlacementGroup instanceType) pgName availabilityZone := by
      rcases subnetId with - | s
      · rw [launchNetworking] at hnet
        simpa using hnet.symm
      · have hs : s = "" := by
          by_contra hs0
          simp [optTruthy, hs0] at hfalsy
        rw [launchNetworking, if_pos hs] at hnet
        simpa using hnet.symm
    obtain ⟨g1, g2, g3, g4, -⟩ := launchNetworkingNoSubnet_shape
      (launchBase amiId instanceType arn rootDeviceName volumeSize volumeType
        repository accountId)
      sgName (requiresClusterPlacementGroup instanceType) pgName availabilityZone
    rw [← hval] at g1 g2 g3 g4
    refine ⟨by rw [hp, hf2, g1], by rw [hp, hf1, g2]; rfl,
      by rw [hp, hf3, g3]; rfl, ?_⟩
    intro haz
    obtain ⟨pl, hpl, hplaz⟩ := g4 haz
    exact ⟨pl, by rw [hp, hf4, hpl], hplaz⟩

/-- With no (truthy) subnet, the networking stage is the no-subnet
branch. -/
theorem launchNetworking_no_subnet_eq (env : LaunchEnv) (base : RunParams)
    (sgName : String) (requiresPg : Bool)
    (pgName availabilityZone subnetId : Option String) (p₂ : RunParams)
    (hfalsy : optTruthy subnetId = false)
    (hnet : (launchNetworking env base sgName requiresPg pgName availabilityZone
      subnetId).2 = Except.ok p₂) :
    p₂ = launchNetworkingNoSubnet base sgName requiresPg pgName availabilityZone := by
  rcases subnetId with - | s
  · rw [launchNetworking] at hnet
    simpa using hnet.symm
  · have hs : s = "" := by
      by_contra hs0
      simp [optTruthy, hs0] at hfalsy
    rw [launchNetworking, if_pos hs] at hnet
    simpa using hnet.symm

/-- C5 (amended): for a deployment whose instance type is in the HPC
allow-list and that requests no subnet, the pipeline ensures the cluster
placement group before issuing the create-instance call, and the
create-instance call carries `Placement.GroupName`; the availability
zone is included in the placement exactly when one was explicitly
requested (with no requested zone the zone is left for the provider to
choose). -/
theorem launch_hpc_placement_group (env : LaunchEnv)
    (amiId instanceType sgName rootDeviceName : String) (volumeSize : Nat)
    (volumeType : Option String) (repository accountId region : String)
    (availabilityZone subnetId userData : Option String) (p : RunParams)
    (hreq : requiresClusterPlacementGroup instanceType = true)
    (hsub : optTruthy subnetId = false)
    (hok : (launchEc2 env amiId instanceType sgName rootDeviceName volumeSize
      volumeType repository accountId region availabilityZone subnetId userData).2 =
      Except.ok p) :
    AwsCall.describePlacementGroups (placementGroupName accountId) ∈
      ((launchEc2 env amiId instanceType sgName rootDeviceName volumeSize
        volumeType repository accountId region availabilityZone subnetId
        userData).1.takeWhile (fun c => !(isRunInstances c))) ∧
    (optTruthy availabilityZone = true →
      p.placement = some ⟨some (placementGroupName accountId), availabilityZone⟩) ∧
    (optTruthy availabilityZone = false →
      p.placement = some ⟨some (placementGroupName accountId), none⟩) := by
  obtain ⟨arn, pgName, p₂, pre, -, hpgn, hnet, hp, htrace, hnr, hmem⟩ :=
    launchEc2_ok_decomp env amiId instanceType sgName rootDeviceName volumeSize
      volumeType repository accountId region availabilityZone subnetId userData p hok
  have hpgn₂ : pgName = some (placementGroupName accountId) := by
    rw [hpgn, if_pos hreq]
  have ht : (launchEc2 env amiId instanceType sgName rootDeviceName volumeSize
      volumeType repository accountId region availabilityZone subnetId
      userData).1.takeWhile (fun c => !(isRunInstances c)) = pre := by
    rw [htrace]
    exact takeWhile_calls_append pre _ hnr rfl
  have hval := launchNetworking_no_subnet_eq env
    (launchBase amiId instanceType arn rootDeviceName volumeSize volumeType
      repository accountId)
    sgName (requiresClusterPlacementGroup instanceType) pgName availabilityZone
    subnetId p₂ hsub hnet
  obtain ⟨-, -, -, -, g5⟩ := launchNetworkingNoSubnet_shape
    (launchBase amiId instanceType arn rootDeviceName volumeSize volumeType
      repository accountId)
    sgName (requiresClusterPlacementGroup instanceType) pgName availabilityZone
  obtain ⟨gaz, gnoaz⟩ := g5 hreq (by
    rw [hpgn₂]
    exact optTruthy_placementGroupName accountId)
  obtain ⟨-, -, -, hf4⟩ := applyUserData_fields p₂ userData
  rw [ht]
  refine ⟨hmem hreq, ?_, ?_⟩
  · intro haz
    rw [hp, hf4, hval, gaz haz, hpgn₂]
  · intro haz
    rw [hp, hf4, hval, gnoaz haz, hpgn₂]

/-- Counterexample to the claim as stated: with an HPC instance type,
no subnet and no requested availability zone, the submitted request
carries `Placement.GroupName` but no availability zone at all, so the
create-instance call does not include a resolved availability zone. -/
theorem launch_hpc_no_az_counterexample :
    ¬ ∀ (p : RunParams) (pl : Placement),
        (launchEc2 hpcLaunchEnv "ami-0abc" "hpc7a.96xlarge" "sg-default" "/dev/xvda" 30
          (some "gp3") "fbpic" "123456789012" "us-east-2" none none none).2 =
          Except.ok p →
        p.placement = some pl →
        ∃ az, pl.availabilityZone = some az := by
  intro h
  rcases h _ _ rfl rfl with ⟨az, haz⟩
  simp at haz

/-- Witness for the amended placement-group claim: with an explicitly
requested zone, the describe of the placement group precedes the
submission and the request carries both the group name and the zone. -/
theorem launch_hpc_placement_group_witness :
    ∃ p : RunParams,
      (launchEc2 hpcLaunchEnv "ami-0abc" "hpc7a.96xlarge" "sg-default" "/dev/xvda" 30
        (some "gp3") "fbpic" "123456789012" "us-east-2" (some "us-east-2a") none none).2 =
        Except.ok p ∧
      AwsCall.describePlacementGroups (placementGroupName "123456789012") ∈
        ((launchEc2 hpcLaunchEnv "ami-0abc" "hpc7a.96xlarge" "sg-default" "/dev/xvda" 30
          (some "gp3") "fbpic" "123456789012" "us-east-2" (some "us-east-2a") none
          none).1.takeWhile (fun c => !(isRunInstances c))) ∧
      p.placement = some ⟨some (placementGroupName "123456789012"), some "us-east-2a"⟩ := by
  have h := launch_hpc_placement_group hpcLaunchEnv "ami-0abc" "hpc7a.96xlarge"
    "sg-default" "/dev/xvda" 30 (some "gp3") "fbpic" "123456789012" "us-east-2"
    (some "us-east-2a") none none _ (by decide) (by decide) rfl
  exact ⟨_, rfl, h.1, h.2.1 (by decide)⟩

/-- Witness for the security-group membership claim: a request with a
subnet produces a create call with membership by identifier and the
subnet set, with no membership by name. -/
theorem launch_sg_membership_shape_witness :
    ∃ p : RunParams,
      (launchEc2 hpcLaunchEnv "ami-0abc" "g5.xlarge" "sg-default" "/dev/xvda" 30
        (some "gp3") "fbpic" "123456789012" "us-east-2" none (some "subnet-789") none).2 =
        Except.ok p ∧
      p.subnetId = some "subnet-789" ∧ p.securityGroups = none ∧
      ∃ sgId, p.securityGroupIds = some [sgId] := by
  have h := launch_sg_membership_shape hpcLaunchEnv "ami-0abc" "g5.xlarge" "sg-default"
    "/dev/xvda" 30 (some "gp3") "fbpic" "123456789012" "us-east-2" none
    (some "subnet-789") none _ rfl
  obtain ⟨h1, h2, h3⟩ := h.1 (by decide)
  exact ⟨_, rfl, h1, h2, h3⟩

/-- Leading `NoSuchEntity` attempts are skipped without changing the
flag. -/
theorem verifyLoop_skip_noSuchEntity (env : VerifyEnv) (ma : Nat) :
    ∀ (remaining attempt : Nat) (fa : Bool) (k : Nat), k < remaining →
      attempt + remaining = ma →
      (∀ j, j < k → env.sts (attempt + j) = StsOutcome.clientError "NoSuchEntity") →
      cloudformationVerifyLoop env ma attempt remaining fa =
        cloudformationVerifyLoop env ma (attempt + k) (remaining - k) fa := by
  intro remaining
  induction remaining with
  | zero => intro attempt fa k hk; omega
  | succ r ih =>
    intro attempt fa k hk hsum hns
    cases k with
    | zero => simp
    | succ k₂ =>
      have h0 : env.sts attempt = StsOutcome.clientError "NoSuchEntity" := by
        simpa using hns 0 (Nat.succ_pos k₂)
      have hlt : attempt < ma - 1 := by omega
      rw [cloudformationVerifyLoop]
      simp only [h0, if_true]
      rw [if_pos hlt]
      have hrec := ih (attempt + 1) fa k₂ (by omega) (by omega) (fun j hj => by
        have := hns (j + 1) (by omega)
        simpa [Nat.add_assoc, Nat.add_comm 1 j] using this)
      rw [hrec]
      have ha : attempt + 1 + k₂ = attempt + (k₂ + 1) := by omega
      have hb : r - k₂ = r + 1 - (k₂ + 1) := by omega
      rw [ha, hb]

/-- The loop only consults the attempts inside its window. -/
theorem verifyLoop_window (env₁ env₂ : VerifyEnv) (ma : Nat)
    (hprobe : env₁.probeNoSuchEntity = env₂.probeNoSuchEntity)
    (htrust : env₁.trustArn = env₂.trustArn)
    (hcaller : env₁.callerArn = env₂.callerArn) :
    ∀ (remaining attempt : Nat) (fa : Bool),
      (∀ j, attempt ≤ j → j < attempt + remaining → env₁.sts j = env₂.sts j) →
      cloudformationVerifyLoop env₁ ma attempt remaining fa =
        cloudformationVerifyLoop env₂ ma attempt remaining fa := by
  intro remaining
  induction remaining with
  | zero => intro attempt fa _; rfl
  | succ r ih =>
    intro attempt fa hsts
    have h0 : env₁.sts attempt = env₂.sts attempt :=
      hsts attempt (Nat.le_refl attempt) (by omega)
    rw [cloudformationVerifyLoop, cloudformationVerifyLoop, ← h0]
    cases hcode : env₁.sts attempt with
    | ok => rfl
    | clientError code =>
      dsimp only
      by_cases hns : code = "NoSuchEntity"
      · rw [if_pos hns, if_pos hns]
        by_cases hlt : attempt < ma - 1
        · rw [if_pos hlt, if_pos hlt]
          exact ih (attempt + 1) fa (fun j hj₁ hj₂ => hsts j (by omega) (by omega))
        · rw [if_neg hlt, if_neg hlt]
      · rw [if_neg hns, if_neg hns]
        by_cases had : code = "AccessDenied"
        · rw [if_pos had, if_pos had, hprobe, htrust, hcaller]
        · rw [if_neg had, if_neg had]

/-- C2 (amended): in the trust-verification loop, an `AccessDenied`
assume-role failure reached after any number of `NoSuchEntity` retries
is classified the same way regardless of the attempt index — the
first-attempt flag is never cleared, its reset being unreachable — and
the classification depends on the backend IAM probe: the
not-found-style remediation when the probe reports `NoSuchEntity`,
otherwise the trust-policy-mismatch error reporting the expected versus
the actual trust identity.  `NoSuchEntity` on every attempt exhausts
the fixed 24-attempt budget and raises the not-found remediation, and
no attempt outside the 24-attempt window is ever consulted.
Malformed-credential codes are immediately fatal. -/
theorem verify_access_denied_classification (env : VerifyEnv) :
    (∀ k, k < 24 →
      (∀ j, j < k → env.sts j = StsOutcome.clientError "NoSuchEntity") →
      env.sts k = StsOutcome.clientError "AccessDenied" →
      cloudformationVerify env =
        (if env.probeNoSuchEntity then VerifyResult.notFound404
         else VerifyResult.trustMismatch403 env.trustArn env.callerArn)) ∧
    ((∀ j, j < 24 → env.sts j = StsOutcome.clientError "NoSuchEntity") →
      cloudformationVerify env = VerifyResult.notFound404) ∧
    (∀ env₂ : VerifyEnv,
      env.probeNoSuchEntity = env₂.probeNoSuchEntity →
      env.trustArn = env₂.trustArn →
      env.callerArn = env₂.callerArn →
      (∀ j, j < 24 → env.sts j = env₂.sts j) →
      cloudformationVerify env = cloudformationVerify env₂) ∧
    (∀ k, k < 24 →
      (∀ j, j < k → env.sts j = StsOutcome.clientError "NoSuchEntity") →
      (env.sts k = StsOutcome.clientError "InvalidClientTokenId" ∨
       env.sts k = StsOutcome.clientError "SignatureDoesNotMatch") →
      cloudformationVerify env = VerifyResult.backendCreds500) := by
  refine ⟨?_, ?_, ?_, ?_⟩
  · intro k hk hns hk24
    rw [cloudformationVerify,
      verifyLoop_skip_noSuchEntity env 24 24 0 true k hk (by omega)
        (fun j hj => by simpa using hns j hj)]
    have hrem : 24 - k = (24 - k - 1) + 1 := by omega
    rw [hrem, cloudformationVerifyLoop]
    cases hp : env.probeNoSuchEntity <;> simp [hk24, hp]
  · intro hns
    rw [cloudformationVerify,
      verifyLoop_skip_noSuchEntity env 24 24 0 true 23 (by omega) (by omega)
        (fun j hj => by simpa using hns j (by omega))]
    have h23 : env.sts 23 = StsOutcome.clientError "NoSuchEntity" := hns 23 (by omega)
    rw [show (24 - 23 : Nat) = 0 + 1 from rfl, cloudformationVerifyLoop]
    simp [h23]
  · intro env₂ hprobe htrust hcaller hsts
    exact verifyLoop_window env env₂ 24 hprobe htrust hcaller 24 0 true
      (fun j hj₁ hj₂ => hsts j (by omega))
  · intro k hk hns hic
    rw [cloudformationVerify,
      verifyLoop_skip_noSuchEntity env 24 24 0 true k hk (by omega)
        (fun j hj => by simpa using hns j hj)]
    have hrem : 24 - k = (24 - k - 1) + 1 := by omega
    rw [hrem, cloudformationVerifyLoop]
    rcases hic with hic | hic <;> simp [hic]

/-- Counterexample to the claim as stated: with `NoSuchEntity` on the
first attempt and `AccessDenied` on the second (a later attempt), the
run raises the not-found-style remediation error, not the
trust-policy-mismatch error the claim prescribes for later attempts. -/
theorem verify_late_access_denied_counterexample :
    cloudformationVerify verifyEnvLateDenied = VerifyResult.notFound404 ∧
    ∀ expected actual,
      cloudformationVerify verifyEnvLateDenied ≠
        VerifyResult.trustMismatch403 expected actual := by
  refine ⟨by decide, ?_⟩
  intro expected actual h
  rw [(by decide : cloudformationVerify verifyEnvLateDenied = VerifyResult.notFound404)] at h
  exact VerifyResult.noConfusion h

/-- Witness for the amended trust-verification claim: the late-denied
run is classified by the probe (not-found remediation), and an
all-not-found run exhausts the 24-attempt budget with the not-found
error. -/
theorem verify_access_denied_classification_witness :
    cloudformationVerify verifyEnvLateDenied =
      (if verifyEnvLateDenied.probeNoSuchEntity then VerifyResult.notFound404
       else VerifyResult.trustMismatch403 verifyEnvLateDenied.trustArn
         verifyEnvLateDenied.callerArn) :=
  (verify_access_denied_classification verifyEnvLateDenied).1 1 (by decide)
    (fun j hj => by interval_cases j; decide) (by decide)

/-- Terminate counts add over concatenation. -/
theorem countTerminates_append (l₁ l₂ : List PipeCall) :
    countTerminates (l₁ ++ l₂) = countTerminates l₁ + countTerminates l₂ := by
  simp [countTerminates, List.filter_append]

/-- The pipeline itself never calls terminate-instances. -/
theorem deployWithBoto3_no_terminate (env : PipelineEnv) (b : Bool) :
    countTerminates (deployWithBoto3 env b).calls = 0 := by
  obtain ⟨amiR, sgR, launchR, ssmR, dockerR, confR, pullR, termOk⟩ := env
  cases amiR <;> cases sgR <;> cases launchR <;> cases ssmR <;> cases dockerR <;>
  cases b <;> cases confR <;> cases pullR <;>
  simp [deployWithBoto3, deployAfterDocker, deployPull, countTerminates]

/-- C1 (amended): in the streaming deploy endpoint, a pipeline failure
after the instance was created triggers exactly one terminate-instances
call for that instance, appended after the pipeline's own calls (which
contain none), the terminal event reports the original step failure,
and the cleanup call's own outcome never influences the stream; a
failure before instance creation triggers no termination.  The
synchronous deploy endpoint performs no termination cleanup at all: a
failing run issues zero terminate-instances calls and surfaces the
original error. -/
theorem deploy_cleanup_semantics (env : PipelineEnv) (b : Bool) :
    (∀ iid e, (deployWithBoto3 env b).result = Except.error e →
      (deployWithBoto3 env b).createdInstance = some iid →
      (deployStream env b).1 =
        (deployWithBoto3 env b).calls ++ [PipeCall.terminateInstances iid] ∧
      countTerminates (deployStream env b).1 = 1 ∧
      (deployStream env b).2 = StreamTerminal.error e.detail) ∧
    (∀ e, (deployWithBoto3 env b).result = Except.error e →
      (deployWithBoto3 env b).createdInstance = none →
      countTerminates (deployStream env b).1 = 0 ∧
      (deployStream env b).2 = StreamTerminal.error e.detail) ∧
    (∀ x, deployStream { env with terminateOk := x } b = deployStream env b) ∧
    (∀ e, (deploySync env b).result = Except.error e →
      countTerminates (deploySync env b).calls = 0) := by
  refine ⟨?_, ?_, fun x => rfl, fun e _ => deployWithBoto3_no_terminate env b⟩
  · intro iid e hres hcreated
    have h1 : deployStream env b =
        ((deployWithBoto3 env b).calls ++ [PipeCall.terminateInstances iid],
         StreamTerminal.error e.detail) := by
      simp only [deployStream, hres, hcreated]
    rw [h1]
    refine ⟨rfl, ?_, rfl⟩
    rw [countTerminates_append, deployWithBoto3_no_terminate]
    rfl
  · intro e hres hcreated
    have h1 : deployStream env b =
        ((deployWithBoto3 env b).calls, StreamTerminal.error e.detail) := by
      simp only [deployStream, hres, hcreated]
    rw [h1]
    exact ⟨deployWithBoto3_no_terminate env b, rfl⟩

/-- Counterexample to the claim as stated: in the synchronous deploy
endpoint, a run whose Docker-install step fails after the instance was
created issues zero terminate-instances calls, not exactly one. -/
theorem deploy_sync_no_cleanup_counterexample :
    (deployWithBoto3 pipelineEnvDockerFails true).result =
      Except.error ⟨500, "Docker installation failed: yum error"⟩ ∧
    (deployWithBoto3 pipelineEnvDockerFails true).createdInstance = some "i-0abc123" ∧
    countTerminates (deploySync pipelineEnvDockerFails true).calls = 0 ∧
    countTerminates (deploySync pipelineEnvDockerFails true).calls ≠ 1 := by
  exact ⟨rfl, rfl, rfl, by decide⟩

/-- Witness for the amended cleanup claim: the streaming endpoint, on
the Docker-install failure, issues exactly one terminate for the
created instance after the pipeline calls and reports the original
Docker error. -/
theorem deploy_cleanup_semantics_witness :
    (deployStream pipelineEnvDockerFails true).1 =
      [PipeCall.getAmi, PipeCall.ensureSG, PipeCall.launchInstance, PipeCall.waitSsm,
       PipeCall.installDocker, PipeCall.terminateInstances "i-0abc123"] ∧
    countTerminates (deployStream pipelineEnvDockerFails true).1 = 1 ∧
    (deployStream pipelineEnvDockerFails true).2 =
      StreamTerminal.error "Docker installation failed: yum error" := by
  have h := (deploy_cleanup_semantics pipelineEnvDockerFails true).1 "i-0abc123"
    ⟨500, "Docker installation failed: yum error"⟩ rfl rfl
  exact ⟨by rw [h.1]; rfl, h.2.1, h.2.2⟩

end AwsDeployer
